import Mathlib

/-!
# Complaint intake backend (`server.js`)

A shallow embedding of the Express application in `src/server.js`: the
complaint schema, the upload filter, the password guard and the four routes,
as pure functions over an explicit `World` (the database collection, the
GridFS bucket and the process environment).

The libraries the file calls are modelled by the small functions of the
section "Library behaviour": Express routes an error passed to `next` to its
default error handler (status 500, no error middleware is registered in
`server.js`), Multer builds `req.body` and `req.file`, hands a file part to
`fileFilter` and enforces `limits.fileSize`, Mongoose validates a document on
`save` and casts, without validating, the operands of `findByIdAndUpdate`.

Two connections appear in `server.js`. Line 14 opens `conn` with
`mongoose.createConnection`, and the GridFS bucket `gfs` is built on it. Line
38 registers `Complaint` with `mongoose.model`, that is on Mongoose's default
connection, which no line opens. Every operation of the model is therefore
buffered and rejected when Mongoose's buffering timeout expires: this is the
state `emptyWorld`, in which the server starts and which no event leaves.
-/

namespace ComplaintServer

/-! ## Data model -/

/-- An ObjectId, as the number written by its 24 hexadecimal digits. -/
abbrev ObjectId := Nat

/-- A document of the `Complaint` model (`complaintSchema`, lines 25-36).
A `String` path that is undefined or null is `none`. -/
structure Complaint where
  _id : ObjectId
  customerName : Option String
  customerEmail : Option String
  state : Option String
  productId : Option String
  complaintDetails : Option String
  complaintType : Option String
  submitterRole : Option String
  photoId : Option ObjectId
  status : Option String
  createdAt : Nat
  deriving DecidableEq, Repr

/-- The `enum` of path `state` (line 28). -/
def stateEnum : List String := ["MI", "MD", "PA", "WV", "OK"]

/-- The `enum` of path `complaintType` (line 31). -/
def complaintTypeEnum : List String := ["Quality", "Packaging", "Service", "Other"]

/-- The `enum` of path `submitterRole` (line 32). -/
def submitterRoleEnum : List String := ["Customer", "Staff"]

/-- The `enum` of path `status` (line 34). -/
def statusEnum : List String := ["Open", "Resolved"]

/-- A file part of a multipart request, as Multer describes it:
`originalname` is the file name the part declares (empty when it declares
none), `size` is the length of the content in bytes. -/
structure FilePart where
  fieldname : String
  originalname : String
  mimetype : String
  size : Nat
  deriving DecidableEq, Repr

/-- A file of the GridFS bucket `photos`. -/
structure Blob where
  id : ObjectId
  filename : String
  contentType : String
  length : Nat
  deriving DecidableEq, Repr

/-- A call issued to the database. -/
inductive DbOp where
  | find
  | insertOne
  | findOneAndUpdate (id : ObjectId)
  | uploadBlob
  deriving DecidableEq, Repr

/-- Everything a handler can read or change.

* `staffPassword` is `process.env.STAFF_PASSWORD` (`none` when unset);
* `gfs` tells whether the `open` event of `conn` has assigned `gfs`
  (lines 18-21);
* `dbError` is `some msg` when the operations of the `Complaint` model reject,
  with an error whose message is `msg`. Since the model sits on the default
  connection, which `server.js` never opens, this is the case in every run
  (`emptyWorld`); `none` describes the same handlers over a model whose
  connection is open;
* `omitUndefined` tells whether Mongoose drops an undefined value from an
  update (Mongoose 6 and later) or sends it, stored as null (Mongoose 5);
* `now` is `Date.now()`, `nextId` the next ObjectId to be generated;
* `complaints` is the collection in insertion order, `blobs` the bucket;
* `log` records the database calls issued so far. -/
structure World where
  staffPassword : Option String
  gfs : Bool
  dbError : Option String
  omitUndefined : Bool
  now : Nat
  nextId : ObjectId
  complaints : List Complaint
  blobs : List Blob
  log : List DbOp
  deriving DecidableEq, Repr

/-- A JSON value found under a key of a JSON request body, seen as Mongoose's
caster for `String` paths sees it. -/
inductive JVal where
  /-- JSON `null`. -/
  | null
  /-- A JSON string. -/
  | str (s : String)
  /-- Any other value (number, boolean, array, object), with what the caster
  makes of it: the string it converts to, or `none` when it raises a
  `CastError`. -/
  | other (cast : Option String)
  deriving DecidableEq, Repr

/-- A property of `req.body` as Multer builds it from the text parts of a
multipart form. -/
inductive FormVal where
  /-- The value of a field sent once under a plain name. -/
  | text (s : String)
  /-- The array Multer builds for a field sent several times or named `k[]`,
  or the object it builds for fields named `k[x]`. `shown` is the rendering of
  the value and `typeName` its type (`Array`, `Object`) in Mongoose's error
  text; `cast` is what Mongoose's caster for `String` paths makes of the
  value: the string it converts to, or `none` when it raises a `CastError`. -/
  | nested (shown typeName : String) (cast : Option String)
  deriving DecidableEq, Repr

/-- The object `req.body` after Multer, as the list of its properties; a
property is read with `List.lookup`. -/
abbrev FormBody := List (String × FormVal)

/-- A parsed JSON object, `req.body` after `express.json()`, as the list of
its properties; a request without a JSON body has the empty object. -/
abbrev JsonBody := List (String × JVal)

/-- The body of a response. -/
inductive ResBody where
  /-- The JSON object with the single key `message`. -/
  | message (m : String)
  /-- A complaint document as JSON. -/
  | complaint (c : Complaint)
  /-- An array of complaint documents as JSON. -/
  | complaints (cs : List Complaint)
  /-- The page of Express's default error handler for the error `detail`. -/
  | errorPage (detail : String)
  deriving DecidableEq, Repr

/-- An HTTP response: status code and body. -/
structure Response where
  status : Nat
  body : ResBody
  deriving DecidableEq, Repr

/-- The requests the application routes. -/
inductive Request where
  /-- Route `POST /api/login` with a JSON body. -/
  | login (body : JsonBody)
  /-- Route `GET /api/complaints`; `header` is `req.headers['x-staff-password']`. -/
  | list (header : Option String)
  /-- Route `POST /api/complaints` with form fields and at most one file part. -/
  | submit (body : FormBody) (photo : Option FilePart)
  /-- Route `PUT /api/complaints/:id` with a JSON body. -/
  | update (header : Option String) (id : String) (body : JsonBody)
  deriving DecidableEq, Repr

/-- What happens to a running server: a request arrives, the connection `conn`
opens, or the clock moves to `t`. -/
inductive Event where
  | request (r : Request)
  | connectionOpen
  | clock (t : Nat)
  deriving DecidableEq, Repr

/-! ## Library behaviour -/

/-- Express's default error handler: an error that carries no `status` is
answered with status 500. -/
def defaultErrorHandler (detail : String) : Response :=
  ⟨500, .errorPage detail⟩

/-- JavaScript truthiness of a property of `req.body`: undefined and the empty
string are falsy, arrays and objects are truthy. -/
def truthy : Option FormVal → Bool
  | some (.text s) => decide (s ≠ "")
  | some (.nested _ _ _) => true
  | none => false

/-- Value of a hexadecimal digit. -/
def hexVal (c : Char) : Option Nat :=
  if 48 ≤ c.toNat ∧ c.toNat ≤ 57 then some (c.toNat - 48)
  else if 97 ≤ c.toNat ∧ c.toNat ≤ 102 then some (c.toNat - 87)
  else if 65 ≤ c.toNat ∧ c.toNat ≤ 70 then some (c.toNat - 55)
  else none

/-- Value of a string of hexadecimal digits, most significant first. -/
def parseHex : List Char → Nat → Option Nat
  | [], acc => some acc
  | c :: cs, acc =>
    match hexVal c with
    | some d => parseHex cs (16 * acc + d)
    | none => none

/-- Mongoose's cast of a path parameter to an ObjectId: a string of 24
hexadecimal digits is an ObjectId, anything else raises a `CastError`
(`none`). Older drivers also read a string of exactly 12 characters as the
twelve bytes of an ObjectId; that reading is left out, and no statement below
rests on a string of that length. -/
def castObjectId (s : String) : Option ObjectId :=
  if s.length = 24 then parseHex s.toList 0 else none

/-- The message of the `CastError` raised for an identifier. -/
def castErrorMessage (value : String) : String :=
  "Cast to ObjectId failed for value \"" ++ value
    ++ "\" (type string) at path \"_id\" for model \"Complaint\""

/-- The message with which a buffered operation of the model is rejected when
the default connection has not opened within Mongoose's buffering timeout. The
text names the operation; it is given for the insertion of `save`, the only
operation whose message a route shows. -/
def bufferingTimedOut : String :=
  "Operation `complaints.insertOne()` buffering timed out after 10000ms"

/-- Mongoose's cast of a property of `req.body` to a `String` path: the value,
or the text of the `CastError`. -/
def castString (path : String) : Option FormVal → Except String (Option String)
  | none => .ok none
  | some (.text s) => .ok (some s)
  | some (.nested _ _ (some s)) => .ok (some s)
  | some (.nested shown typeName none) =>
    .error (path ++ ": Cast to string failed for value \"" ++ shown ++ "\" (type "
      ++ typeName ++ ") at path \"" ++ path ++ "\"")

/-- The value a `String` path of a new document takes from a property of
`req.body`: undefined when the cast fails. -/
def castValue (path : String) (v : Option FormVal) : Option String :=
  match castString path v with
  | .ok s => s
  | .error _ => none

/-- The cast errors a new document records for a property of `req.body`:
the path with the text of its error. -/
def castErrors (path : String) (v : Option FormVal) : List (String × String) :=
  match castString path v with
  | .ok _ => []
  | .error e => [(path, e)]

/-- Validation of one `String` path: `required` rejects undefined and the
empty string, `enum` rejects a present value outside the list. The result is
the list of error texts. -/
def validatePath (path : String) (required : Bool) (enum : Option (List String))
    (v : Option String) : List String :=
  match v with
  | none => if required then [path ++ ": Path `" ++ path ++ "` is required."] else []
  | some s =>
    if required ∧ s = "" then [path ++ ": Path `" ++ path ++ "` is required."]
    else
      match enum with
      | some vs =>
        if s ∈ vs then []
        else [path ++ ": `" ++ s ++ "` is not a valid enum value for path `" ++ path ++ "`."]
      | none => []

/-- The errors of one path on `save`: its cast error when the document
recorded one, the verdict of its validators otherwise. -/
def pathErrors (failed : List (String × String)) (path : String) (required : Bool)
    (enum : Option (List String)) (v : Option String) : List String :=
  match failed.lookup path with
  | some e => [e]
  | none => validatePath path required enum v

/-- The validation `save` runs on a document of `complaintSchema` built with
the cast errors `failed`: the error texts of all paths, in schema order. -/
def validationErrors (c : Complaint) (failed : List (String × String)) : List String :=
  pathErrors failed "customerName" false none c.customerName
    ++ pathErrors failed "customerEmail" false none c.customerEmail
    ++ pathErrors failed "state" true (some stateEnum) c.state
    ++ pathErrors failed "productId" true none c.productId
    ++ pathErrors failed "complaintDetails" true none c.complaintDetails
    ++ pathErrors failed "complaintType" false (some complaintTypeEnum) c.complaintType
    ++ pathErrors failed "submitterRole" false (some submitterRoleEnum) c.submitterRole
    ++ pathErrors failed "status" false (some statusEnum) c.status

/-- The outcome of a call that may throw: the value, or the error's message. -/
abbrev Outcome (α : Type) := Except String α

/-- The constructor `new Complaint(fields)`: the document gets a fresh `_id`,
the cast of each field, and the schema defaults `status: 'Open'` and
`createdAt: Date.now`. The second component lists the cast errors the document
recorded. -/
def newComplaint (w : World) (state productId complaintDetails customerName customerEmail
    complaintType submitterRole : Option FormVal) (photoId : Option ObjectId) :
    (Complaint × List (String × String)) × World :=
  (({ _id := w.nextId
      customerName := castValue "customerName" customerName
      customerEmail := castValue "customerEmail" customerEmail
      state := castValue "state" state
      productId := castValue "productId" productId
      complaintDetails := castValue "complaintDetails" complaintDetails
      complaintType := castValue "complaintType" complaintType
      submitterRole := castValue "submitterRole" submitterRole
      photoId := photoId
      status := some "Open"
      createdAt := w.now },
    castErrors "state" state ++ castErrors "productId" productId
      ++ castErrors "complaintDetails" complaintDetails
      ++ castErrors "customerName" customerName ++ castErrors "customerEmail" customerEmail
      ++ castErrors "complaintType" complaintType
      ++ castErrors "submitterRole" submitterRole),
   { w with nextId := w.nextId + 1 })

/-- The call `complaint.save()`: validation first; the insertion of a valid
document is then issued, and rejected when the model's operations reject. -/
def save (w : World) (c : Complaint) (failed : List (String × String)) :
    Outcome Complaint × World :=
  match validationErrors c failed with
  | [] =>
    match w.dbError with
    | some e => (.error e, { w with log := w.log ++ [DbOp.insertOne] })
    | none =>
      (.ok c, { w with complaints := w.complaints ++ [c], log := w.log ++ [DbOp.insertOne] })
  | errs => (.error ("Complaint validation failed: " ++ ", ".intercalate errs), w)

/-- The call `gfs.openUploadStream(name, opts)` followed by `end(buffer)`, on
the open connection `conn`: the stream has a fresh id at once and the file is
written to the bucket. -/
def openUploadStream (w : World) (f : FilePart) : ObjectId × World :=
  (w.nextId,
   { w with
     nextId := w.nextId + 1
     blobs := w.blobs ++ [⟨w.nextId, f.originalname, f.mimetype, f.size⟩]
     log := w.log ++ [DbOp.uploadBlob] })

/-- The order `{ createdAt: -1 }` of a sort: `a` may stand before `b` when it
is not older. -/
def newerFirst (a b : Complaint) : Prop := b.createdAt ≤ a.createdAt

instance : DecidableRel newerFirst :=
  fun a b => inferInstanceAs (Decidable (b.createdAt ≤ a.createdAt))

/-- The query `Complaint.find().sort({ createdAt: -1 })`: every document, newest first. -/
def findSorted (w : World) : Outcome (List Complaint) × World :=
  match w.dbError with
  | some e => (.error e, { w with log := w.log ++ [DbOp.find] })
  | none =>
    (.ok (w.complaints.insertionSort newerFirst),
     { w with log := w.log ++ [DbOp.find] })

/-- The update Mongoose sends for `{ status }`: `none` for an empty update,
`some v` to set `status` to `v`; a `CastError` for a value the caster
refuses. No validator runs (`runValidators` is not set). -/
def castStatusUpdate (omitUndefined : Bool) : Option JVal → Outcome (Option (Option String))
  | none => if omitUndefined then .ok none else .ok (some none)
  | some .null => .ok (some none)
  | some (.str s) => .ok (some (some s))
  | some (.other (some s)) => .ok (some (some s))
  | some (.other none) => .error "Cast to string failed at path \"status\""

/-- Applies an update of `status` to a document. -/
def applyStatus (upd : Option (Option String)) (c : Complaint) : Complaint :=
  match upd with
  | some v => { c with status := v }
  | none => c

/-- Replaces the first document whose `_id` is `id` by its image under `f`. -/
def updateFirst (id : ObjectId) (f : Complaint → Complaint) : List Complaint → List Complaint
  | [] => []
  | c :: cs => if c._id = id then f c :: cs else c :: updateFirst id f cs

/-- The call `Complaint.findByIdAndUpdate(id, { status }, { new: true })`: casts the
identifier and the update, then changes the matching document and returns its
new version, or returns null (`none`) when no document matches. -/
def findByIdAndUpdate (w : World) (id : String) (status : Option JVal) :
    Outcome (Option Complaint) × World :=
  match castObjectId id with
  | none => (.error (castErrorMessage id), w)
  | some oid =>
    match castStatusUpdate w.omitUndefined status with
    | .error e => (.error e, w)
    | .ok upd =>
      match w.dbError with
      | some e => (.error e, { w with log := w.log ++ [DbOp.findOneAndUpdate oid] })
      | none =>
        match w.complaints.find? (fun c => decide (c._id = oid)) with
        | none => (.ok none, { w with log := w.log ++ [DbOp.findOneAndUpdate oid] })
        | some c =>
          (.ok (some (applyStatus upd c)),
           { w with
             complaints := updateFirst oid (applyStatus upd) w.complaints
             log := w.log ++ [DbOp.findOneAndUpdate oid] })

/-! ## The application (`server.js`) -/

/-- The list `allowedTypes` of `fileFilter` (line 46). -/
def allowedTypes : List String := ["image/png", "image/jpeg"]

/-- The `limits.fileSize` of `upload` (line 44): 5 MiB. -/
def fileSizeLimit : Nat := 5 * 1024 * 1024

/-- What `fileFilter` tells Multer through `cb`. -/
inductive FilterResult where
  /-- The call `cb(null, true)`. -/
  | accept
  /-- The call `cb(null, false)`. -/
  | skip
  /-- The call `cb(new Error(msg))`. -/
  | reject (msg : String)
  deriving DecidableEq, Repr

/-- The `fileFilter` of `upload` (lines 45-54). -/
def fileFilter (file : Option FilePart) : FilterResult :=
  match file with
  | some f =>
    if f.mimetype ∈ allowedTypes then .accept
    else .reject "Only PNG and JPEG files are allowed"
  | none => .skip

/-- The middleware `upload.single(field)` (line 88): Multer skips a file part
without a file name, refuses a file part under another field name, asks
`fileFilter`, then reads the file into memory and refuses it when it reaches
`fileSizeLimit`. The result is `req.file`, or the message of the error passed
to `next`. -/
def uploadSingle (field : String) (part : Option FilePart) : Outcome (Option FilePart) :=
  match part with
  | none => .ok none
  | some f =>
    if f.originalname = "" then .ok none
    else if f.fieldname ≠ field then .error "Unexpected field"
    else
      match fileFilter (some f) with
      | .reject msg => .error msg
      | .skip => .ok none
      | .accept => if fileSizeLimit ≤ f.size then .error "File too large" else .ok (some f)

/-- What a middleware does with a request. -/
inductive Guard where
  /-- The call `next()`: the request goes on to the handler. -/
  | next
  /-- The middleware answers itself. -/
  | respond (r : Response)
  deriving DecidableEq, Repr

/-- The middleware `checkPassword` (lines 68-75): strict equality of the
header and `process.env.STAFF_PASSWORD`, both possibly undefined. -/
def checkPassword (w : World) (header : Option String) : Guard :=
  if header = w.staffPassword then .next
  else .respond ⟨401, .message "Unauthorized"⟩

/-- The comparison `password === process.env.STAFF_PASSWORD` of the login
route: a string equals the same string, undefined equals undefined. -/
def passwordMatches : Option JVal → Option String → Bool
  | none, none => true
  | some (.str s), some t => decide (s = t)
  | _, _ => false

/-- The handler of `POST /api/login` (lines 58-65). -/
def loginHandler (w : World) (body : JsonBody) : Response × World :=
  if passwordMatches (body.lookup "password") w.staffPassword then
    (⟨200, .message "Login successful"⟩, w)
  else (⟨401, .message "Invalid password"⟩, w)

/-- The handler of `GET /api/complaints` (lines 78-85). -/
def listHandler (w : World) : Response × World :=
  match findSorted w with
  | (.ok complaints, w1) => (⟨200, .complaints complaints⟩, w1)
  | (.error _, w1) => (⟨500, .message "Server error"⟩, w1)

/-- The message of the `TypeError` thrown by `gfs.openUploadStream` while
`gfs` is undefined. -/
def gfsUndefinedMessage : String :=
  "Cannot read properties of undefined (reading 'openUploadStream')"

/-- The upload of `req.file` to GridFS (lines 95-102): `photoId` stays null
without a file; with one, `gfs.openUploadStream` throws while `gfs` is
undefined. -/
def storePhoto (w : World) (file : Option FilePart) : Outcome (Option ObjectId) × World :=
  match file with
  | some f =>
    if w.gfs then (.ok (some (openUploadStream w f).1), (openUploadStream w f).2)
    else (.error gfsUndefinedMessage, w)
  | none => (.ok none, w)

/-- The construction and `save` of the document (lines 104-115), with the
`catch` of lines 116-118 for a rejected `save`. -/
def createComplaint (w : World) (body : FormBody) (photoId : Option ObjectId) :
    Response × World :=
  let built :=
    newComplaint w (body.lookup "state") (body.lookup "productId")
      (body.lookup "complaintDetails") (body.lookup "customerName")
      (body.lookup "customerEmail") (body.lookup "complaintType")
      (body.lookup "submitterRole") photoId
  match save built.2 built.1.1 built.1.2 with
  | (.ok saved, w1) => (⟨201, .complaint saved⟩, w1)
  | (.error e, w1) => (⟨400, .message e⟩, w1)

/-- The handler of `POST /api/complaints` (lines 88-119); `file` is
`req.file`. An error thrown in the `try` block is answered by its `catch`
with status 400 and the error's message. -/
def submitHandler (w : World) (body : FormBody) (file : Option FilePart) : Response × World :=
  if !truthy (body.lookup "state") || !truthy (body.lookup "productId")
      || !truthy (body.lookup "complaintDetails") then
    (⟨400, .message "State, product ID, and complaint details are required"⟩, w)
  else
    match storePhoto w file with
    | (.error e, w1) => (⟨400, .message e⟩, w1)
    | (.ok photoId, w1) => createComplaint w1 body photoId

/-- The handler of `PUT /api/complaints/:id` (lines 122-132). -/
def updateHandler (w : World) (id : String) (body : JsonBody) : Response × World :=
  let status := body.lookup "status"
  match findByIdAndUpdate w id status with
  | (.error _, w1) => (⟨500, .message "Server error"⟩, w1)
  | (.ok none, w1) => (⟨404, .message "Complaint not found"⟩, w1)
  | (.ok (some complaint), w1) => (⟨200, .complaint complaint⟩, w1)

/-- The application: the route of a request with its middleware chain
(`cors()` and `express.json()`, lines 9-10, let every request of type
`Request` through, with its body parsed). An error a middleware passes to
`next` reaches Express's default error handler, since `server.js` registers
no error-handling middleware. -/
def handle (w : World) : Request → Response × World
  | .login body => loginHandler w body
  | .list header =>
    match checkPassword w header with
    | .next => listHandler w
    | .respond r => (r, w)
  | .submit body photo =>
    match uploadSingle "photo" photo with
    | .ok file => submitHandler w body file
    | .error e => (defaultErrorHandler e, w)
  | .update header id body =>
    match checkPassword w header with
    | .next => updateHandler w id body
    | .respond r => (r, w)

/-- The world after an event: a request is handled, the `open` handler of
`conn` (lines 18-21) assigns `gfs`, or the clock moves. No event opens the
default connection. -/
def step (w : World) : Event → World
  | .request r => (handle w r).2
  | .connectionOpen => { w with gfs := true }
  | .clock t => { w with now := t }

/-- The world after a sequence of events. -/
def run (w : World) : List Event → World
  | [] => w
  | e :: es => run (step w e) es

/-- The server as `server.js` starts it, with an empty repository: `gfs` is
not assigned yet, and the `Complaint` model sits on the default connection,
which is never opened, so that its operations are rejected with
`bufferingTimedOut`. -/
def emptyWorld (staffPassword : Option String) (omitUndefined : Bool) : World :=
  { staffPassword := staffPassword
    gfs := false
    dbError := some bufferingTimedOut
    omitUndefined := omitUndefined
    now := 0
    nextId := 0
    complaints := []
    blobs := []
    log := [] }

/-- The server of `emptyWorld` had `conn` opened and had the `Complaint` model
been registered on an open connection: a state `server.js` as written does
not reach, in which the handlers can be followed up to the database's
answer. -/
def connectedWorld (staffPassword : Option String) : World :=
  { emptyWorld staffPassword true with gfs := true, dbError := none }

/-! ## Sample inputs -/

/-- A form with the three required fields, a complaint type, and three keys
the handler does not read. -/
def sampleForm : FormBody :=
  [("state", .text "MI"), ("productId", .text "P-100"),
   ("complaintDetails", .text "Stale flower"), ("complaintType", .text "Quality"),
   ("status", .text "Resolved"), ("createdAt", .text "1999-01-01"),
   ("photoId", .text "ffffffffffffffffffffffff")]

/-- A form without the field `state`. -/
def formWithoutState : FormBody :=
  [("productId", .text "P-100"), ("complaintDetails", .text "Stale flower")]

/-- A GIF image of 2 KiB sent under the field name `photo`. -/
def gifPhoto : FilePart :=
  { fieldname := "photo", originalname := "leaf.gif", mimetype := "image/gif", size := 2048 }

/-- A server started with the staff password `secret`. -/
def freshWorld : World := emptyWorld (some "secret") true

/-- A server started without `STAFF_PASSWORD` in its environment. -/
def unsetSecretWorld : World := emptyWorld none true

/-- A server whose database rejects every call with a connection error. -/
def failingWorld : World :=
  { freshWorld with dbError := some "connect ECONNREFUSED 127.0.0.1:27017" }

/-- A connected world after two submissions, the second one second later. -/
def twoComplaintsWorld : World :=
  (handle { (handle (connectedWorld (some "secret")) (.submit sampleForm none)).2 with
      now := 1000 }
    (.submit sampleForm none)).2

/-- The identifier of the first document a server stores. -/
def firstId : String := "000000000000000000000000"

/-- The requests of a valid submission followed by an authorized update of
the first identifier with the status `Garbage`. -/
def garbageUpdate : List Event :=
  [.request (.submit sampleForm none),
   .request (.update (some "secret") firstId [("status", .str "Garbage")])]

end ComplaintServer

namespace ComplaintServer

/-! ## Lemmas on the library model -/

instance : IsTotal Complaint newerFirst :=
  ⟨fun a b => Nat.le_total b.createdAt a.createdAt⟩

instance : IsTrans Complaint newerFirst :=
  ⟨fun _ _ _ hab hbc => Nat.le_trans hbc hab⟩

theorem truthy_eq_false_iff (v : Option FormVal) :
    truthy v = false ↔ v = none ∨ v = some (.text "") := by
  cases v with
  | none => simp [truthy]
  | some x => cases x <;> simp [truthy]

theorem castString_text (path s : String) :
    castString path (some (.text s)) = .ok (some s) := rfl

theorem castValue_text (path s : String) : castValue path (some (.text s)) = some s := rfl

theorem castErrors_text (path s : String) : castErrors path (some (.text s)) = [] := rfl

theorem validatePath_free (path : String) (v : Option String) :
    validatePath path false none v = [] := by
  cases v <;> simp [validatePath]

theorem validatePath_enum_ok (path : String) (required : Bool) (vs : List String) (s : String)
    (hs : s ∈ vs) (hne : s ≠ "") :
    validatePath path required (some vs) (some s) = [] := by
  simp [validatePath, hs, hne]

theorem validatePath_required_ok (path : String) (s : String) (hne : s ≠ "") :
    validatePath path true none (some s) = [] := by
  simp [validatePath, hne]

theorem validatePath_optional_enum (path : String) (vs : List String) (v : Option String)
    (h : ∀ s, v = some s → s ∈ vs) :
    validatePath path false (some vs) v = [] := by
  cases v with
  | none => simp [validatePath]
  | some s => simp [validatePath, h s rfl]

theorem pathErrors_nil (path : String) (required : Bool) (enum : Option (List String))
    (v : Option String) : pathErrors [] path required enum v = validatePath path required enum v :=
  rfl

theorem sorted_index_order (cs : List Complaint) (hs : cs.Sorted newerFirst)
    (i j : Nat) (hi : i < cs.length) (hj : j < cs.length)
    (hlt : cs[j].createdAt < cs[i].createdAt) : i < j := by
  by_contra hcon
  have hji : j ≤ i := Nat.le_of_not_lt hcon
  rcases Nat.lt_or_eq_of_le hji with h | h
  · have := List.pairwise_iff_getElem.mp hs j i hj hi h
    unfold newerFirst at this
    omega
  · subst h
    omega

theorem find?_none_of_absent (oid : ObjectId) (cs : List Complaint)
    (h : ∀ c ∈ cs, c._id ≠ oid) :
    cs.find? (fun c => decide (c._id = oid)) = none := by
  rw [List.find?_eq_none]
  intro c hc
  simpa using h c hc

theorem mem_updateFirst (oid : ObjectId) (f : Complaint → Complaint) (cs : List Complaint)
    (c : Complaint) (h : cs.find? (fun c => decide (c._id = oid)) = some c) :
    f c ∈ updateFirst oid f cs := by
  induction cs with
  | nil => simp at h
  | cons d ds ih =>
    unfold updateFirst
    by_cases hd : d._id = oid
    · simp [List.find?, hd] at h
      subst h
      simp [hd]
    · simp [List.find?, hd] at h
      simp [hd, ih h]

theorem applyStatus_frame (upd : Option (Option String)) (c : Complaint) :
    applyStatus upd c = { c with status := (applyStatus upd c).status } := by
  cases upd <;> rfl

theorem forall₂_frame_refl (P : Complaint → Prop) (cs : List Complaint) :
    List.Forall₂ (fun old new => new = { old with status := new.status } ∧ (P old → new = old))
      cs cs :=
  List.forall₂_same.mpr (fun _ _ => ⟨rfl, fun _ => rfl⟩)

theorem updateFirst_frame (oid : ObjectId) (upd : Option (Option String)) (cs : List Complaint) :
    List.Forall₂
      (fun old new => new = { old with status := new.status } ∧ (old._id ≠ oid → new = old))
      cs (updateFirst oid (applyStatus upd) cs) := by
  induction cs with
  | nil => exact List.Forall₂.nil
  | cons c cs ih =>
    unfold updateFirst
    split
    · next h =>
      exact List.Forall₂.cons ⟨applyStatus_frame upd c, fun hne => absurd h hne⟩
        (forall₂_frame_refl _ cs)
    · exact List.Forall₂.cons ⟨rfl, fun _ => rfl⟩ ih

theorem findByIdAndUpdate_frame (w : World) (id : String) (status : Option JVal) :
    List.Forall₂
      (fun old new =>
        new = { old with status := new.status } ∧ (castObjectId id ≠ some old._id → new = old))
      w.complaints (findByIdAndUpdate w id status).2.complaints
    ∧ (findByIdAndUpdate w id status).2.blobs = w.blobs := by
  cases hid : castObjectId id with
  | none =>
    simp only [findByIdAndUpdate, hid]
    exact ⟨forall₂_frame_refl _ _, trivial⟩
  | some oid =>
    cases hupd : castStatusUpdate w.omitUndefined status with
    | error e =>
      simp only [findByIdAndUpdate, hid, hupd]
      exact ⟨forall₂_frame_refl _ _, trivial⟩
    | ok upd =>
      cases hdb : w.dbError with
      | some e =>
        simp only [findByIdAndUpdate, hid, hupd, hdb]
        exact ⟨forall₂_frame_refl _ _, trivial⟩
      | none =>
        cases hfind : w.complaints.find? (fun c => decide (c._id = oid)) with
        | none =>
          simp only [findByIdAndUpdate, hid, hupd, hdb, hfind]
          exact ⟨forall₂_frame_refl _ _, trivial⟩
        | some c =>
          simp only [findByIdAndUpdate, hid, hupd, hdb, hfind]
          refine ⟨?_, trivial⟩
          refine List.Forall₂.imp ?_ (updateFirst_frame oid upd w.complaints)
          intro old new h
          refine ⟨h.1, fun hne => h.2 ?_⟩
          intro heq
          exact hne (by rw [heq])

/-- What `findByIdAndUpdate` leaves of the world while the model's operations
reject: everything but the log. -/
theorem findByIdAndUpdate_rejecting (w : World) (id : String) (status : Option JVal)
    (e : String) (hdb : w.dbError = some e) :
    (∃ msg, (findByIdAndUpdate w id status).1 = .error msg)
    ∧ (findByIdAndUpdate w id status).2.complaints = w.complaints := by
  cases hid : castObjectId id with
  | none => simp [findByIdAndUpdate, hid]
  | some oid =>
    cases hupd : castStatusUpdate w.omitUndefined status with
    | error e => simp [findByIdAndUpdate, hid, hupd]
    | ok upd => simp [findByIdAndUpdate, hid, hupd, hdb]

/-- No operation of the model changes the configuration. -/
theorem findByIdAndUpdate_config (w : World) (id : String) (status : Option JVal) :
    (findByIdAndUpdate w id status).2.dbError = w.dbError
    ∧ (findByIdAndUpdate w id status).2.staffPassword = w.staffPassword := by
  unfold findByIdAndUpdate
  split
  · exact ⟨rfl, rfl⟩
  · split
    · exact ⟨rfl, rfl⟩
    · split
      · exact ⟨rfl, rfl⟩
      · split <;> exact ⟨rfl, rfl⟩

theorem save_config (w : World) (c : Complaint) (failed : List (String × String)) :
    (save w c failed).2.dbError = w.dbError
    ∧ (save w c failed).2.staffPassword = w.staffPassword := by
  unfold save
  split
  · split <;> exact ⟨rfl, rfl⟩
  · exact ⟨rfl, rfl⟩

/-- While the model's operations reject, `save` fails and stores nothing. -/
theorem save_rejecting (w : World) (c : Complaint) (failed : List (String × String))
    (e : String) (hdb : w.dbError = some e) :
    (∃ msg, (save w c failed).1 = .error msg)
    ∧ (save w c failed).2.complaints = w.complaints := by
  unfold save
  split
  · simp [hdb]
  · exact ⟨⟨_, rfl⟩, rfl⟩

end ComplaintServer

namespace ComplaintServer

/-! ## Lemmas on the routes -/

theorem checkPassword_next_iff (w : World) (header : Option String) :
    checkPassword w header = .next ↔ header = w.staffPassword := by
  unfold checkPassword
  split <;> simp_all

/-- The two staff-only routes: the handler runs when `checkPassword` lets the
request through, and the request is answered 401 with the world untouched
otherwise. -/
theorem handle_guarded (w : World) (header : Option String) (id : String) (body : JsonBody) :
    handle w (.list header)
      = (if header = w.staffPassword then listHandler w
         else (⟨401, .message "Unauthorized"⟩, w))
    ∧ handle w (.update header id body)
      = (if header = w.staffPassword then updateHandler w id body
         else (⟨401, .message "Unauthorized"⟩, w)) := by
  by_cases h : header = w.staffPassword <;> simp [handle, checkPassword, h]

/-- With a secret configured, `checkPassword` lets through exactly the
requests whose header is that secret; every other listing or update is
answered 401 and leaves the world, the log of database calls included, as it
was. -/
theorem guard_with_secret (w : World) (secret : String) (header : Option String) (id : String)
    (body : JsonBody) (hset : w.staffPassword = some secret) :
    (checkPassword w header = .next ↔ header = some secret)
    ∧ (header = some secret →
        handle w (.list header) = listHandler w
        ∧ handle w (.update header id body) = updateHandler w id body)
    ∧ (header ≠ some secret →
        handle w (.list header) = (⟨401, .message "Unauthorized"⟩, w)
        ∧ handle w (.update header id body) = (⟨401, .message "Unauthorized"⟩, w)) := by
  refine ⟨by rw [checkPassword_next_iff, hset], ?_, ?_⟩
  · intro h
    simp [handle, checkPassword, h, hset]
  · intro h
    simp [handle, checkPassword, h, hset]

/-- Without `STAFF_PASSWORD`, a request without the header passes the guard. -/
theorem unset_secret_admits_missing_header (w : World) (id : String) (body : JsonBody)
    (hunset : w.staffPassword = none) :
    checkPassword w none = .next
    ∧ handle w (.list none) = listHandler w
    ∧ handle w (.update none id body) = updateHandler w id body := by
  simp [handle, checkPassword, hunset]

/-- A submission that lacks a required field and reaches the handler is
answered 400 and changes nothing. -/
theorem submitHandler_missing (w : World) (body : FormBody) (file : Option FilePart)
    (h : truthy (body.lookup "state") = false ∨ truthy (body.lookup "productId") = false
      ∨ truthy (body.lookup "complaintDetails") = false) :
    submitHandler w body file
      = (⟨400, .message "State, product ID, and complaint details are required"⟩, w) := by
  unfold submitHandler
  rcases h with h | h | h <;> simp [h]

/-- With no file, or a file the upload middleware lets through, a submission
that lacks a required field is answered 400; no document is inserted and no
blob is written. -/
theorem submit_missing_upload_ok (w : World) (body : FormBody) (photo file : Option FilePart)
    (hup : uploadSingle "photo" photo = .ok file)
    (h : truthy (body.lookup "state") = false ∨ truthy (body.lookup "productId") = false
      ∨ truthy (body.lookup "complaintDetails") = false) :
    handle w (.submit body photo)
      = (⟨400, .message "State, product ID, and complaint details are required"⟩, w) := by
  simp [handle, hup, submitHandler_missing w body file h]

/-- An error of the upload middleware is answered by Express's default error
handler; the handler of the route does not run. -/
theorem handle_submit_upload_error (w : World) (body : FormBody) (photo : Option FilePart)
    (e : String) (h : uploadSingle "photo" photo = .error e) :
    handle w (.submit body photo) = (defaultErrorHandler e, w) := by
  simp [handle, h]

/-- A named photo whose MIME type is not allowed is refused by `fileFilter`. -/
theorem uploadSingle_rejects (f : FilePart) (hn : f.originalname ≠ "")
    (hf : f.fieldname = "photo") (hm : f.mimetype ∉ allowedTypes) :
    uploadSingle "photo" (some f) = .error "Only PNG and JPEG files are allowed" := by
  simp [uploadSingle, fileFilter, hn, hf, hm]

/-- A photo of a MIME type outside `allowedTypes`: status 500 from the default
error handler, whatever the form holds, and an unchanged world. -/
theorem submit_rejected_mimetype (w : World) (body : FormBody) (f : FilePart)
    (hn : f.originalname ≠ "") (hf : f.fieldname = "photo") (hm : f.mimetype ∉ allowedTypes) :
    handle w (.submit body (some f))
      = (⟨500, .errorPage "Only PNG and JPEG files are allowed"⟩, w) :=
  handle_submit_upload_error w body (some f) _ (uploadSingle_rejects f hn hf hm)

/-- A photo of an allowed type that reaches the size limit is refused with
status 500 as well. -/
theorem submit_oversized (w : World) (body : FormBody) (f : FilePart)
    (hn : f.originalname ≠ "") (hf : f.fieldname = "photo") (hm : f.mimetype ∈ allowedTypes)
    (hs : fileSizeLimit ≤ f.size) :
    handle w (.submit body (some f)) = (⟨500, .errorPage "File too large"⟩, w) := by
  apply handle_submit_upload_error
  simp [uploadSingle, fileFilter, hn, hf, hm, hs]

theorem storePhoto_world (w : World) (file : Option FilePart) :
    (storePhoto w file).2.dbError = w.dbError
    ∧ (storePhoto w file).2.staffPassword = w.staffPassword
    ∧ (storePhoto w file).2.complaints = w.complaints := by
  unfold storePhoto
  split
  · split <;> exact ⟨rfl, rfl, rfl⟩
  · exact ⟨rfl, rfl, rfl⟩

theorem createComplaint_config (w : World) (body : FormBody) (photoId : Option ObjectId) :
    (createComplaint w body photoId).2.dbError = w.dbError
    ∧ (createComplaint w body photoId).2.staffPassword = w.staffPassword := by
  have h := save_config
    (newComplaint w (body.lookup "state") (body.lookup "productId")
      (body.lookup "complaintDetails") (body.lookup "customerName")
      (body.lookup "customerEmail") (body.lookup "complaintType")
      (body.lookup "submitterRole") photoId).2
    (newComplaint w (body.lookup "state") (body.lookup "productId")
      (body.lookup "complaintDetails") (body.lookup "customerName")
      (body.lookup "customerEmail") (body.lookup "complaintType")
      (body.lookup "submitterRole") photoId).1.1
    (newComplaint w (body.lookup "state") (body.lookup "productId")
      (body.lookup "complaintDetails") (body.lookup "customerName")
      (body.lookup "customerEmail") (body.lookup "complaintType")
      (body.lookup "submitterRole") photoId).1.2
  unfold createComplaint
  simp only []
  split
  · next heq => rw [heq] at h; exact h
  · next heq => rw [heq] at h; exact h

/-- While the model's operations reject, the document is not created: the
answer is 400 and the collection is unchanged. -/
theorem createComplaint_rejecting (w : World) (body : FormBody) (photoId : Option ObjectId)
    (e : String) (hdb : w.dbError = some e) :
    (createComplaint w body photoId).1.status = 400
    ∧ (createComplaint w body photoId).2.complaints = w.complaints := by
  have h := save_rejecting
    (newComplaint w (body.lookup "state") (body.lookup "productId")
      (body.lookup "complaintDetails") (body.lookup "customerName")
      (body.lookup "customerEmail") (body.lookup "complaintType")
      (body.lookup "submitterRole") photoId).2
    (newComplaint w (body.lookup "state") (body.lookup "productId")
      (body.lookup "complaintDetails") (body.lookup "customerName")
      (body.lookup "customerEmail") (body.lookup "complaintType")
      (body.lookup "submitterRole") photoId).1.1
    (newComplaint w (body.lookup "state") (body.lookup "productId")
      (body.lookup "complaintDetails") (body.lookup "customerName")
      (body.lookup "customerEmail") (body.lookup "complaintType")
      (body.lookup "submitterRole") photoId).1.2 e hdb
  unfold createComplaint
  simp only []
  split
  · next heq =>
    rw [heq] at h
    obtain ⟨⟨msg, hmsg⟩, _⟩ := h
    cases hmsg
  · next heq =>
    rw [heq] at h
    exact ⟨rfl, h.2⟩

end ComplaintServer

namespace ComplaintServer

/-- A file part without a file name is skipped: `req.file` stays undefined,
whatever the part's type. -/
theorem uploadSingle_unnamed (field : String) (f : FilePart) (hn : f.originalname = "") :
    uploadSingle field (some f) = .ok none := by
  simp [uploadSingle, hn]

/-- A named photo of an allowed type below the size limit becomes `req.file`. -/
theorem uploadSingle_accepts (f : FilePart) (hn : f.originalname ≠ "")
    (hf : f.fieldname = "photo") (hm : f.mimetype ∈ allowedTypes)
    (hs : f.size < fileSizeLimit) :
    uploadSingle "photo" (some f) = .ok (some f) := by
  simp [uploadSingle, fileFilter, hn, hf, hm, Nat.not_le.mpr hs]

/-- A file that reaches the handler before `conn` has opened: `gfs` is
undefined, the `TypeError` is caught and answered 400 with its message. -/
theorem storePhoto_before_open (w : World) (f : FilePart) (hg : w.gfs = false) :
    storePhoto w (some f) = (.error gfsUndefinedMessage, w) := by
  simp [storePhoto, hg]

/-- Once `conn` is open the file is written to the bucket before the document
is saved, and stays there when `save` is rejected. -/
theorem storePhoto_open (w : World) (f : FilePart) (hg : w.gfs = true) :
    storePhoto w (some f)
      = (.ok (some w.nextId),
         { w with
           nextId := w.nextId + 1
           blobs := w.blobs ++ [⟨w.nextId, f.originalname, f.mimetype, f.size⟩]
           log := w.log ++ [DbOp.uploadBlob] }) := by
  simp [storePhoto, hg, openUploadStream]

end ComplaintServer

namespace ComplaintServer

theorem submitHandler_config (w : World) (body : FormBody) (file : Option FilePart) :
    (submitHandler w body file).2.dbError = w.dbError
    ∧ (submitHandler w body file).2.staffPassword = w.staffPassword := by
  have hs := storePhoto_world w file
  unfold submitHandler
  split
  · exact ⟨rfl, rfl⟩
  · split
    · next heq => rw [heq] at hs; exact ⟨hs.1, hs.2.1⟩
    · next photoId w1 heq =>
      rw [heq] at hs
      have hc := createComplaint_config w1 body photoId
      exact ⟨hc.1.trans hs.1, hc.2.trans hs.2.1⟩

/-- While the model's operations reject, a submission that reaches the
handler is answered 400 and stores no document. -/
theorem submitHandler_rejecting (w : World) (body : FormBody) (file : Option FilePart)
    (e : String) (hdb : w.dbError = some e) :
    (submitHandler w body file).1.status = 400
    ∧ (submitHandler w body file).2.complaints = w.complaints := by
  have hs := storePhoto_world w file
  unfold submitHandler
  split
  · exact ⟨rfl, rfl⟩
  · split
    · next heq => rw [heq] at hs; exact ⟨rfl, hs.2.2⟩
    · next photoId w1 heq =>
      rw [heq] at hs
      have hc := createComplaint_rejecting w1 body photoId e (hs.1.trans hdb)
      exact ⟨hc.1, hc.2.trans hs.2.2⟩

theorem updateHandler_world (w : World) (id : String) (body : JsonBody) :
    (updateHandler w id body).2 = (findByIdAndUpdate w id (body.lookup "status")).2 := by
  simp only [updateHandler]
  split <;> simp_all

theorem listHandler_world (w : World) :
    (listHandler w).2 = { w with log := w.log ++ [DbOp.find] } := by
  unfold listHandler findSorted
  cases w.dbError <;> rfl

/-- No request changes the secret or the state of the model's connection. -/
theorem handle_config (w : World) (r : Request) :
    (handle w r).2.dbError = w.dbError ∧ (handle w r).2.staffPassword = w.staffPassword := by
  cases r with
  | login body =>
    simp only [handle, loginHandler]
    split <;> exact ⟨rfl, rfl⟩
  | list header =>
    rw [(handle_guarded w header "" []).1]
    split
    · rw [listHandler_world]; exact ⟨rfl, rfl⟩
    · exact ⟨rfl, rfl⟩
  | submit body photo =>
    simp only [handle]
    split
    · exact submitHandler_config w body _
    · exact ⟨rfl, rfl⟩
  | update header id body =>
    rw [(handle_guarded w header id body).2]
    split
    · rw [updateHandler_world]; exact findByIdAndUpdate_config w id _
    · exact ⟨rfl, rfl⟩

/-- While the model's operations reject, no request changes the collection. -/
theorem handle_rejecting_complaints (w : World) (r : Request) (e : String)
    (hdb : w.dbError = some e) : (handle w r).2.complaints = w.complaints := by
  cases r with
  | login body =>
    simp only [handle, loginHandler]
    split <;> rfl
  | list header =>
    rw [(handle_guarded w header "" []).1]
    split
    · rw [listHandler_world]
    · rfl
  | submit body photo =>
    simp only [handle]
    split
    · exact (submitHandler_rejecting w body _ e hdb).2
    · rfl
  | update header id body =>
    rw [(handle_guarded w header id body).2]
    split
    · rw [updateHandler_world]; exact (findByIdAndUpdate_rejecting w id _ e hdb).2
    · rfl

/-- A listing while the model's operations reject: status 500 and the fixed
text, after a `find` was issued. -/
theorem list_db_failure (w : World) (header : Option String) (e : String)
    (hauth : header = w.staffPassword) (hdb : w.dbError = some e) :
    handle w (.list header)
      = (⟨500, .message "Server error"⟩, { w with log := w.log ++ [DbOp.find] }) := by
  simp [handle, checkPassword, hauth, listHandler, findSorted, hdb]

/-- An update while the model's operations reject: status 500 and the fixed
text. -/
theorem update_db_failure (w : World) (header : Option String) (id : String) (body : JsonBody)
    (e : String) (hauth : header = w.staffPassword) (hdb : w.dbError = some e) :
    (handle w (.update header id body)).1 = ⟨500, .message "Server error"⟩ := by
  simp only [handle, checkPassword, hauth, ↓reduceIte, updateHandler, findByIdAndUpdate, hdb]
  cases castObjectId id with
  | none => rfl
  | some oid =>
    cases castStatusUpdate w.omitUndefined (List.lookup "status" body) with
    | error e => rfl
    | ok upd => rfl

/-- While the model's operations reject, no request is answered 201. -/
theorem handle_rejecting_status (w : World) (r : Request) (e : String)
    (hdb : w.dbError = some e) : (handle w r).1.status ≠ 201 := by
  cases r with
  | login body =>
    simp only [handle, loginHandler]
    split <;> simp
  | list header =>
    by_cases h : header = w.staffPassword
    · rw [list_db_failure w header e h hdb]; simp
    · simp [handle, checkPassword, h]
  | submit body photo =>
    simp only [handle]
    split
    · rw [(submitHandler_rejecting w body _ e hdb).1]; simp
    · simp [defaultErrorHandler]
  | update header id body =>
    by_cases h : header = w.staffPassword
    · rw [update_db_failure w header id body e h hdb]; simp
    · simp [handle, checkPassword, h]

theorem step_config (w : World) (ev : Event) :
    (step w ev).dbError = w.dbError ∧ (step w ev).staffPassword = w.staffPassword := by
  cases ev with
  | request r => exact handle_config w r
  | connectionOpen => exact ⟨rfl, rfl⟩
  | clock t => exact ⟨rfl, rfl⟩

theorem step_rejecting_complaints (w : World) (ev : Event) (e : String)
    (hdb : w.dbError = some e) : (step w ev).complaints = w.complaints := by
  cases ev with
  | request r => exact handle_rejecting_complaints w r e hdb
  | connectionOpen => rfl
  | clock t => rfl

/-- No sequence of events changes the secret or the state of the model's
connection, and while the model's operations reject none changes the
collection. -/
theorem run_rejecting (w : World) (evs : List Event) (e : String) (hdb : w.dbError = some e) :
    (run w evs).dbError = some e ∧ (run w evs).staffPassword = w.staffPassword
    ∧ (run w evs).complaints = w.complaints := by
  induction evs generalizing w with
  | nil => exact ⟨hdb, rfl, rfl⟩
  | cons ev evs ih =>
    have hc := step_config w ev
    have h := ih (step w ev) (hc.1.trans hdb)
    exact ⟨h.1, h.2.1.trans hc.2, h.2.2.trans (step_rejecting_complaints w ev e hdb)⟩

/-- Every state the server reaches from its start: the model's operations
reject, the secret is the one of the environment, and the collection is
empty. -/
theorem run_emptyWorld (staffPassword : Option String) (omitUndefined : Bool)
    (evs : List Event) :
    (run (emptyWorld staffPassword omitUndefined) evs).dbError = some bufferingTimedOut
    ∧ (run (emptyWorld staffPassword omitUndefined) evs).staffPassword = staffPassword
    ∧ (run (emptyWorld staffPassword omitUndefined) evs).complaints = [] :=
  run_rejecting (emptyWorld staffPassword omitUndefined) evs bufferingTimedOut rfl

end ComplaintServer

namespace ComplaintServer

theorem castErrors_castable (path : String) (v : Option FormVal)
    (h : ∀ shown typeName, v ≠ some (.nested shown typeName none)) : castErrors path v = [] := by
  cases v with
  | none => rfl
  | some x =>
    cases x with
    | text t => rfl
    | nested shown typeName cast =>
      cases cast with
      | none => exact absurd rfl (h shown typeName)
      | some s => rfl

theorem castErrors_enum (path : String) (vs : List String) (v : Option FormVal)
    (h : v = none ∨ ∃ t ∈ vs, v = some (.text t)) : castErrors path v = [] := by
  rcases h with h | ⟨t, _, h⟩ <;> subst h <;> rfl

theorem castValue_enum (path : String) (vs : List String) (v : Option FormVal)
    (h : v = none ∨ ∃ t ∈ vs, v = some (.text t)) :
    ∀ s, castValue path v = some s → s ∈ vs := by
  rcases h with h | ⟨t, ht, h⟩ <;> subst h
  · intro s hs; cases hs
  · intro s hs
    cases hs
    exact ht

/-- What the route answers to a photo-less submission whose fields are valid:
the document is built and `save` issues its insertion, whose outcome depends
on the model's connection only. -/
theorem submit_valid_eq (w : World) (body : FormBody) (st pid det : String)
    (hstate : body.lookup "state" = some (.text st)) (hst : st ∈ stateEnum)
    (hproduct : body.lookup "productId" = some (.text pid)) (hpid : pid ≠ "")
    (hdetails : body.lookup "complaintDetails" = some (.text det)) (hdet : det ≠ "")
    (hname : ∀ shown typeName, body.lookup "customerName" ≠ some (.nested shown typeName none))
    (hemail : ∀ shown typeName,
      body.lookup "customerEmail" ≠ some (.nested shown typeName none))
    (htype : body.lookup "complaintType" = none
      ∨ ∃ t ∈ complaintTypeEnum, body.lookup "complaintType" = some (.text t))
    (hrole : body.lookup "submitterRole" = none
      ∨ ∃ r ∈ submitterRoleEnum, body.lookup "submitterRole" = some (.text r)) :
    handle w (.submit body none)
      = match w.dbError with
        | some e =>
          (⟨400, .message e⟩,
           { w with nextId := w.nextId + 1, log := w.log ++ [DbOp.insertOne] })
        | none =>
          (⟨201, .complaint (newComplaint w (some (.text st)) (some (.text pid))
              (some (.text det)) (body.lookup "customerName") (body.lookup "customerEmail")
              (body.lookup "complaintType") (body.lookup "submitterRole") none).1.1⟩,
           { w with
             nextId := w.nextId + 1
             complaints := w.complaints ++ [(newComplaint w (some (.text st))
               (some (.text pid)) (some (.text det)) (body.lookup "customerName")
               (body.lookup "customerEmail") (body.lookup "complaintType")
               (body.lookup "submitterRole") none).1.1]
             log := w.log ++ [DbOp.insertOne] }) := by
  have hstne : st ≠ "" := by
    intro h; subst h; simp [stateEnum] at hst
  have hfailed : (newComplaint w (some (.text st)) (some (.text pid)) (some (.text det))
      (body.lookup "customerName") (body.lookup "customerEmail") (body.lookup "complaintType")
      (body.lookup "submitterRole") none).1.2 = [] := by
    simp only [newComplaint, castErrors_text, castErrors_castable _ _ hname,
      castErrors_castable _ _ hemail, castErrors_enum _ _ _ htype,
      castErrors_enum _ _ _ hrole, List.append_nil]
  have hval : validationErrors (newComplaint w (some (.text st)) (some (.text pid))
      (some (.text det)) (body.lookup "customerName") (body.lookup "customerEmail")
      (body.lookup "complaintType") (body.lookup "submitterRole") none).1.1
      (newComplaint w (some (.text st)) (some (.text pid)) (some (.text det))
      (body.lookup "customerName") (body.lookup "customerEmail") (body.lookup "complaintType")
      (body.lookup "submitterRole") none).1.2 = [] := by
    rw [hfailed]
    simp only [validationErrors, pathErrors_nil, newComplaint, castValue_text, validatePath_free,
      validatePath_enum_ok _ _ _ _ hst hstne, validatePath_required_ok _ _ hpid,
      validatePath_required_ok _ _ hdet,
      validatePath_optional_enum _ _ _ (castValue_enum _ _ _ htype),
      validatePath_optional_enum _ _ _ (castValue_enum _ _ _ hrole), List.append_nil]
    simp [validatePath, statusEnum]
  simp only [handle, uploadSingle, submitHandler, hstate, hproduct, hdetails, truthy]
  simp only [hstne, hpid, hdet, ne_eq, not_false_eq_true, decide_True, Bool.not_true,
    Bool.or_self, Bool.false_eq_true, ↓reduceIte, storePhoto, createComplaint, hstate, hproduct,
    hdetails]
  simp only [save, hval]
  cases hdb : w.dbError <;> simp [newComplaint, hdb]

/-- A valid submission while the model's operations reject: status 400, and
the message is the error's own message. -/
theorem submit_db_failure (w : World) (body : FormBody) (st pid det e : String)
    (hstate : body.lookup "state" = some (.text st)) (hst : st ∈ stateEnum)
    (hproduct : body.lookup "productId" = some (.text pid)) (hpid : pid ≠ "")
    (hdetails : body.lookup "complaintDetails" = some (.text det)) (hdet : det ≠ "")
    (hname : ∀ shown typeName, body.lookup "customerName" ≠ some (.nested shown typeName none))
    (hemail : ∀ shown typeName,
      body.lookup "customerEmail" ≠ some (.nested shown typeName none))
    (htype : body.lookup "complaintType" = none
      ∨ ∃ t ∈ complaintTypeEnum, body.lookup "complaintType" = some (.text t))
    (hrole : body.lookup "submitterRole" = none
      ∨ ∃ r ∈ submitterRoleEnum, body.lookup "submitterRole" = some (.text r))
    (hdb : w.dbError = some e) :
    (handle w (.submit body none)).1 = ⟨400, .message e⟩ := by
  rw [submit_valid_eq w body st pid det hstate hst hproduct hpid hdetails hdet hname hemail
    htype hrole, hdb]

theorem listHandler_ok (w : World) (hdb : w.dbError = none) :
    listHandler w
      = (⟨200, .complaints (w.complaints.insertionSort newerFirst)⟩,
         { w with log := w.log ++ [DbOp.find] }) := by
  simp [listHandler, findSorted, hdb]

/-- An authorized listing over a connected model: 200 with the documents,
newest first. -/
theorem handle_list_ok (w : World) (header : Option String)
    (hauth : header = w.staffPassword) (hdb : w.dbError = none) :
    handle w (.list header)
      = (⟨200, .complaints (w.complaints.insertionSort newerFirst)⟩,
         { w with log := w.log ++ [DbOp.find] }) := by
  simp [handle, checkPassword, hauth, listHandler_ok w hdb]

/-- An identifier that is not an ObjectId: the cast throws before any call to
the database, and the route answers 500. -/
theorem update_malformed_id (w : World) (header : Option String) (id : String) (body : JsonBody)
    (hauth : header = w.staffPassword) (hid : castObjectId id = none) :
    handle w (.update header id body) = (⟨500, .message "Server error"⟩, w) := by
  simp [handle, checkPassword, hauth, updateHandler, findByIdAndUpdate, hid]

/-- Over a connected model, a well-formed identifier that no document has is
answered 404. -/
theorem update_unknown_id (w : World) (header : Option String) (id : String) (body : JsonBody)
    (oid : ObjectId) (upd : Option (Option String))
    (hauth : header = w.staffPassword) (hid : castObjectId id = some oid)
    (habsent : ∀ c ∈ w.complaints, c._id ≠ oid)
    (hupd : castStatusUpdate w.omitUndefined (body.lookup "status") = .ok upd)
    (hdb : w.dbError = none) :
    handle w (.update header id body)
      = (⟨404, .message "Complaint not found"⟩,
         { w with log := w.log ++ [DbOp.findOneAndUpdate oid] }) := by
  simp [handle, checkPassword, hauth, updateHandler, findByIdAndUpdate, hid, hupd, hdb,
    find?_none_of_absent oid w.complaints habsent]

/-- Over a connected model, an update of an existing document with a string
is answered 200, and the string is stored as the document's status, whatever
it is: `findByIdAndUpdate` runs no validator. -/
theorem update_sets_status (w : World) (header : Option String) (id : String) (body : JsonBody)
    (oid : ObjectId) (c : Complaint) (s : String)
    (hauth : header = w.staffPassword) (hid : castObjectId id = some oid)
    (hfind : w.complaints.find? (fun c => decide (c._id = oid)) = some c)
    (hstatus : body.lookup "status" = some (.str s))
    (hdb : w.dbError = none) :
    handle w (.update header id body)
      = (⟨200, .complaint { c with status := some s }⟩,
         { w with
           complaints := updateFirst oid (applyStatus (some (some s))) w.complaints
           log := w.log ++ [DbOp.findOneAndUpdate oid] })
    ∧ { c with status := some s } ∈ (handle w (.update header id body)).2.complaints := by
  have h : handle w (.update header id body)
      = (⟨200, .complaint { c with status := some s }⟩,
         { w with
           complaints := updateFirst oid (applyStatus (some (some s))) w.complaints
           log := w.log ++ [DbOp.findOneAndUpdate oid] }) := by
    simp [handle, checkPassword, hauth, updateHandler, findByIdAndUpdate, hid, hstatus,
      castStatusUpdate, hdb, hfind, applyStatus]
  refine ⟨h, ?_⟩
  rw [h]
  exact mem_updateFirst oid (applyStatus (some (some s))) w.complaints c hfind

/-- Over a connected model, an update to `Resolved` of an existing document is
answered 200 with the resolved document, which the next listing returns. -/
theorem update_resolved_then_list (w : World) (header : Option String) (id : String)
    (body : JsonBody) (oid : ObjectId) (c : Complaint)
    (hauth : header = w.staffPassword) (hid : castObjectId id = some oid)
    (hfind : w.complaints.find? (fun c => decide (c._id = oid)) = some c)
    (hstatus : body.lookup "status" = some (.str "Resolved"))
    (hdb : w.dbError = none) :
    (handle w (.update header id body)).1 = ⟨200, .complaint { c with status := some "Resolved" }⟩
    ∧ ∃ cs, (handle (handle w (.update header id body)).2 (.list header)).1
          = ⟨200, .complaints cs⟩
        ∧ { c with status := some "Resolved" } ∈ cs := by
  obtain ⟨h, hmem⟩ := update_sets_status w header id body oid c "Resolved" hauth hid hfind
    hstatus hdb
  refine ⟨by rw [h], (handle w (.update header id body)).2.complaints.insertionSort newerFirst,
    ?_, ?_⟩
  · have hdb2 : (handle w (.update header id body)).2.dbError = none := by rw [h]; exact hdb
    have hp : header = (handle w (.update header id body)).2.staffPassword := by
      rw [h]; exact hauth
    rw [handle_list_ok _ header hp hdb2]
  · exact (List.perm_insertionSort newerFirst _).mem_iff.mpr hmem

/-- Over a connected model, the listing returns a permutation of the
collection in which a document created later stands before any document
created earlier. -/
theorem list_connected_sorted (w : World) (header : Option String)
    (hauth : header = w.staffPassword) (hdb : w.dbError = none) :
    ∃ cs : List Complaint,
      (handle w (.list header)).1 = ⟨200, .complaints cs⟩
      ∧ cs.Perm w.complaints
      ∧ ∀ (i j : Nat) (hi : i < cs.length) (hj : j < cs.length),
          cs[j].createdAt < cs[i].createdAt → i < j := by
  refine ⟨w.complaints.insertionSort newerFirst, ?_, List.perm_insertionSort _ _, ?_⟩
  · rw [handle_list_ok w header hauth hdb]
  · intro i j hi hj hlt
    exact sorted_index_order _ (List.sorted_insertionSort _ _) i j hi hj hlt

/-- In every state the server reaches from its start, a submission is
answered 400 or 500, never 201, and stores nothing. -/
theorem submit_never_created (staffPassword : Option String) (omitUndefined : Bool)
    (evs : List Event) (body : FormBody) (photo : Option FilePart) :
    (handle (run (emptyWorld staffPassword omitUndefined) evs) (.submit body photo)).1.status
      ≠ 201
    ∧ (handle (run (emptyWorld staffPassword omitUndefined) evs)
        (.submit body photo)).2.complaints = [] := by
  have h := run_emptyWorld staffPassword omitUndefined evs
  refine ⟨handle_rejecting_status _ _ _ h.1, ?_⟩
  rw [handle_rejecting_complaints _ _ _ h.1]
  exact h.2.2

/-- In every state the server reaches from its start, an authorized listing
is answered 500 `Server error`: no sequence of documents is returned. -/
theorem list_never_answered (staffPassword : Option String) (omitUndefined : Bool)
    (evs : List Event) :
    (handle (run (emptyWorld staffPassword omitUndefined) evs) (.list staffPassword)).1
      = ⟨500, .message "Server error"⟩ := by
  have h := run_emptyWorld staffPassword omitUndefined evs
  rw [list_db_failure _ staffPassword bufferingTimedOut h.2.1.symm h.1]

end ComplaintServer

namespace ComplaintServer

/-! ## The claims -/

/-- C1, at a failing input: a submission without `state` that carries a GIF
photo. The required field is missing, yet the response has status 500, not
400: the upload middleware passes its error to Express's default error
handler before the handler's check of the required fields runs. The stored
state is unchanged, as the claim says. -/
theorem submit_missing_state_with_gif_status_500 :
    truthy (formWithoutState.lookup "state") = false
    ∧ (handle freshWorld (.submit formWithoutState (some gifPhoto))).1.status = 500
    ∧ (handle freshWorld (.submit formWithoutState (some gifPhoto))).1.status ≠ 400
    ∧ (handle freshWorld (.submit formWithoutState (some gifPhoto))).2 = freshWorld := by
  decide

/-- C2, at a failing input: a server started without `STAFF_PASSWORD` and a
listing request without the header `x-staff-password`. No secret is
configured and none is presented, yet `checkPassword` calls `next`: the
listing handler runs, a `find` is issued to the repository, and the answer is
not 401. -/
theorem checkPassword_passes_without_secret :
    unsetSecretWorld.staffPassword = none
    ∧ checkPassword unsetSecretWorld none = Guard.next
    ∧ handle unsetSecretWorld (.list none) = listHandler unsetSecretWorld
    ∧ (handle unsetSecretWorld (.list none)).2.log = [DbOp.find]
    ∧ (handle unsetSecretWorld (.list none)).1.status ≠ 401 := by
  decide

/-- C3, at a failing input: a valid submission without photo to the server as
it starts. The answer is 400 with the message of Mongoose's buffering
timeout, not 201, and no document is stored: the model `Complaint` is
registered on the default connection (line 38), which `server.js` never
opens, so `save` is rejected. -/
theorem valid_submission_status_400 :
    handle freshWorld (.submit sampleForm none)
      = (⟨400, .message bufferingTimedOut⟩,
         { freshWorld with nextId := 1, log := [DbOp.insertOne] })
    ∧ (handle freshWorld (.submit sampleForm none)).1.status ≠ 201
    ∧ (handle freshWorld (.submit sampleForm none)).2.complaints = []
    ∧ (handle (run freshWorld [.connectionOpen]) (.submit sampleForm none)).1.status = 400 := by
  decide

/-- C4, at a failing input: an authorized listing on the server as it starts,
and again after a valid submission. The answer is 500 `Server error` and no
sequence of documents is returned: `find` runs on the model of the default
connection, which `server.js` never opens. -/
theorem authorized_listing_status_500 :
    some "secret" = freshWorld.staffPassword
    ∧ handle freshWorld (.list (some "secret"))
      = (⟨500, .message "Server error"⟩, { freshWorld with log := [DbOp.find] })
    ∧ (handle (run freshWorld [.request (.submit sampleForm none)])
        (.list (some "secret"))).1 = ⟨500, .message "Server error"⟩ := by
  decide

/-- C5, at a failing input: a valid form with a GIF photo. No complaint is
created, as the claim says, but the response has status 500 and the page of
Express's default error handler, not status 400: the error `fileFilter` builds
is passed to `next` by the upload middleware, and `server.js` has no
error-handling middleware to turn it into a 400. -/
theorem submit_gif_status_500 :
    gifPhoto.mimetype ∉ allowedTypes
    ∧ handle freshWorld (.submit sampleForm (some gifPhoto))
        = (⟨500, .errorPage "Only PNG and JPEG files are allowed"⟩, freshWorld)
    ∧ (handle freshWorld (.submit sampleForm (some gifPhoto))).1.status ≠ 400 := by
  decide

/-- C6, at a failing input: an authorized update of the identifier `abc` on a
server that stores no document at all. No stored document has this
identifier, yet the response is 500 `Server error`, not 404: the cast of
`abc` to an ObjectId throws and the handler's `catch` answers. -/
theorem update_malformed_id_status_500 :
    freshWorld.complaints = []
    ∧ castObjectId "abc" = none
    ∧ handle freshWorld (.update (some "secret") "abc" [("status", .str "Resolved")])
        = (⟨500, .message "Server error"⟩, freshWorld) := by
  decide

/-- C7: in every state the server reaches from its start with an empty
repository, by any sequence of requests (submissions and updates with
arbitrary bodies among them), of openings of `conn` and moves of the clock,
every stored document has status `Open` or `Resolved`, and an update whose
body carries a status outside the enum leaves no document with that status.
The collection is in fact empty in each of these states, since no `save`
succeeds on the never-opened default connection. -/
theorem stored_status_in_enum (staffPassword : Option String) (omitUndefined : Bool)
    (evs : List Event) :
    (∀ c ∈ (run (emptyWorld staffPassword omitUndefined) evs).complaints,
      c.status = some "Open" ∨ c.status = some "Resolved")
    ∧ (∀ (header : Option String) (id : String) (body : JsonBody) (s : String),
        body.lookup "status" = some (.str s) → s ∉ statusEnum →
        ∀ c ∈ (handle (run (emptyWorld staffPassword omitUndefined) evs)
            (.update header id body)).2.complaints,
          c.status ≠ some s)
    ∧ (run (emptyWorld staffPassword omitUndefined) evs).complaints = [] := by
  have h := run_emptyWorld staffPassword omitUndefined evs
  refine ⟨?_, ?_, h.2.2⟩
  · intro c hc
    rw [h.2.2] at hc
    cases hc
  · intro header id body s _ _ c hc
    rw [handle_rejecting_complaints _ _ _ h.1, h.2.2] at hc
    cases hc

/-- Witness of C7: a valid submission followed by an authorized update of the
first identifier with the status `Garbage`; no document has that status
afterwards. -/
theorem stored_status_in_enum_witness :
    (∀ c ∈ (run freshWorld garbageUpdate).complaints,
      c.status = some "Open" ∨ c.status = some "Resolved")
    ∧ (∀ c ∈ (handle (run freshWorld [.request (.submit sampleForm none)])
          (.update (some "secret") firstId [("status", .str "Garbage")])).2.complaints,
        c.status ≠ some "Garbage") :=
  ⟨(stored_status_in_enum (some "secret") true garbageUpdate).1,
   (stored_status_in_enum (some "secret") true [.request (.submit sampleForm none)]).2.1
     (some "secret") firstId [("status", .str "Garbage")] "Garbage" (by decide) (by decide)⟩

/-- C8, at a failing input: a server started without `STAFF_PASSWORD` and
requests without the header `x-staff-password`. The guard compares undefined
with undefined and lets the requests through, instead of answering 401: on
the server as it starts the listing handler issues its `find` and the update
handler its `findOneAndUpdate`, both answered 500; over a connected model the
listing is answered 200 after a `find`, the update 200 after a
`findOneAndUpdate`. -/
theorem missing_header_unset_secret_runs_handler :
    unsetSecretWorld.staffPassword = none
    ∧ handle unsetSecretWorld (.list none)
        = (⟨500, .message "Server error"⟩, { unsetSecretWorld with log := [DbOp.find] })
    ∧ (handle unsetSecretWorld (.list none)).1.status ≠ 401
    ∧ handle unsetSecretWorld (.update none firstId [("status", .str "Resolved")])
        = (⟨500, .message "Server error"⟩,
           { unsetSecretWorld with log := [DbOp.findOneAndUpdate 0] })
    ∧ (handle unsetSecretWorld (.update none firstId [("status", .str "Resolved")])).1.status
        ≠ 401
    ∧ (connectedWorld none).staffPassword = none
    ∧ handle (connectedWorld none) (.list none)
        = (⟨200, .complaints []⟩, { connectedWorld none with log := [DbOp.find] })
    ∧ (handle (handle (connectedWorld none) (.submit sampleForm none)).2
        (.update none firstId [("status", .str "Resolved")])).1.status = 200
    ∧ (handle (handle (connectedWorld none) (.submit sampleForm none)).2
        (.update none firstId [("status", .str "Resolved")])).2.log
          = [DbOp.insertOne, DbOp.findOneAndUpdate 0] := by
  decide

/-- C9, at a failing input: a valid submission while the database refuses
every call. Listing and update answer 500 `Server error`, as the claim says;
the submission answers 400, and its message is the text of the database
error. -/
theorem submit_db_failure_status_400 :
    failingWorld.dbError = some "connect ECONNREFUSED 127.0.0.1:27017"
    ∧ (handle failingWorld (.submit sampleForm none)).1
        = ⟨400, .message "connect ECONNREFUSED 127.0.0.1:27017"⟩
    ∧ (handle failingWorld (.list (some "secret"))).1 = ⟨500, .message "Server error"⟩
    ∧ (handle failingWorld (.update (some "secret") firstId [("status", .str "Resolved")])).1
        = ⟨500, .message "Server error"⟩ := by
  decide

/-- C10: an authorized update, whatever its identifier and body, leaves the
collection with the same documents in the same places, each equal to its
former self except perhaps for `status` (so `_id`, `createdAt`, `photoId` and
every other field are kept), and unchanged when its `_id` is not the given
identifier; the bucket of blobs is unchanged. -/
theorem update_changes_status_only (w : World) (header : Option String) (id : String)
    (body : JsonBody) (hauth : header = w.staffPassword) :
    List.Forall₂
      (fun old new =>
        new = { old with status := new.status } ∧ (castObjectId id ≠ some old._id → new = old))
      w.complaints (handle w (.update header id body)).2.complaints
    ∧ (handle w (.update header id body)).2.complaints.length = w.complaints.length
    ∧ (handle w (.update header id body)).2.blobs = w.blobs := by
  have h : (handle w (.update header id body)).2
      = (findByIdAndUpdate w id (body.lookup "status")).2 := by
    simp [handle, checkPassword, hauth, updateHandler_world]
  rw [h]
  have hf := findByIdAndUpdate_frame w id (body.lookup "status")
  exact ⟨hf.1, hf.1.length_eq.symm, hf.2⟩

/-- Witness of C10: the first of two stored documents is resolved by a body
that also carries a `createdAt` key. -/
theorem update_changes_status_only_witness :
    some "secret" = twoComplaintsWorld.staffPassword
    ∧ List.Forall₂
      (fun old new =>
        new = { old with status := new.status }
        ∧ (castObjectId firstId ≠ some old._id → new = old))
      twoComplaintsWorld.complaints
      (handle twoComplaintsWorld (.update (some "secret") firstId
        [("status", .str "Resolved"), ("createdAt", .other (some "0"))])).2.complaints
    ∧ (handle twoComplaintsWorld (.update (some "secret") firstId
        [("status", .str "Resolved"), ("createdAt", .other (some "0"))])).2.complaints.length
          = twoComplaintsWorld.complaints.length
    ∧ (handle twoComplaintsWorld (.update (some "secret") firstId
        [("status", .str "Resolved"), ("createdAt", .other (some "0"))])).2.blobs
          = twoComplaintsWorld.blobs :=
  ⟨by decide,
   update_changes_status_only twoComplaintsWorld (some "secret") firstId
     [("status", .str "Resolved"), ("createdAt", .other (some "0"))] (by decide)⟩

end ComplaintServer
